import Mathlib

/-!
Verification of `vibebot/rabbit_consumer.py` (class `RabbitConsumer`).

The Python class is callback-driven code over the pika AMQP client.  We embed
it shallowly: every side effect the class performs on its collaborators
(channel operations, metric emissions, io-loop control, timer scheduling) is
recorded as an `Event` in the order the Python code performs it, and the
mutable fields of the object are carried as explicit state records.  External
collaborators are oracles: `json.loads` becomes an `Option`-valued decode
result, the user handler `callback_func` becomes a function returning
`Except Unit (Option (List OutMessage))` (`Except.error` models a raised
exception, `Option.none` models a `None` return), and the two `time.time()`
elapsed-millisecond reads in `on_message` (lines 367 and 378) become the
parameters `t1` and `t2`.
-/

namespace Vibebot

/-- Raw AMQP message bodies, byte strings. -/
abbrev Body := List Nat

/-- The immutable consumer identity set in `__init__` (lines 41-62). -/
structure Config where
  bot_id : String
  exchange : String
  consumer_id : Nat
deriving DecidableEq

/-- `self.queue_name = self.exchange + "-" + self.bot_id` (line 55). -/
def queue_name (c : Config) : String := c.exchange ++ "-" ++ c.bot_id

/-- `self.error_queue_name = 'error-' + self.bot_id + "-" + self.exchange` (line 56). -/
def error_queue_name (c : Config) : String := "error-" ++ c.bot_id ++ "-" ++ c.exchange

/-- Metric names are built from `self.statsd_pre` + suffix, where the
stored prefix string is `self.exchange + "."` (line 62). -/
def metricName (c : Config) (suffix : String) : String := c.exchange ++ "." ++ suffix

/-- An outbound message dict returned by the handler; `on_message` reads the
keys `'exchange'`, `'queue'` and `'body'` with `dict.get` (lines 352-354), so
each may be absent. -/
structure OutMessage where
  exchange : Option String
  queue : Option String
  body : Option Body
deriving DecidableEq

/-- One observable side effect of the consumer, in program order. -/
inductive Event where
  /-- `channel.basic_ack(delivery_tag)` (line 388). -/
  | ack (delivery_tag : Nat)
  /-- `statsd.incr(metric)` (lines 325, 356, 360). -/
  | incr (metric : String)
  /-- `statsd.timing(metric, ms)` (line 378). -/
  | timing (metric : String) (ms : Nat)
  /-- `channel.basic_publish(exchange, routing_key, body)` (lines 352, 362). -/
  | publish (exchange : String) (routing_key : String) (body : Option Body)
  /-- the `json.loads(body)` call (line 334). -/
  | decodeAttempt
  /-- the `self.callback_func(json_body)` call (line 344). -/
  | handlerCall
  /-- the INFO log of the rolling average (line 375). -/
  | logAvg (consumer_id : Nat) (avg_ms : Nat)
  /-- `connection.ioloop.stop()` (lines 119, 131). -/
  | ioloopStop
  /-- `connection.ioloop.start()` (lines 138, 451). -/
  | ioloopStart
  /-- `connection.add_timeout(delay, reconnect)`: schedule a reconnect (line 123). -/
  | scheduleReconnect (delay : Nat)
  /-- `self.connect()`: open a fresh transport connection (line 135). -/
  | connectAttempt
  /-- `connection.channel(...)`: request a new channel (line 147). -/
  | openChannelReq
  /-- `connection.close()` (line 187). -/
  | connectionClose
  /-- `channel.close()` (lines 300, 418). -/
  | channelClose
  /-- `channel.basic_cancel(on_cancelok, consumer_tag)` (line 398). -/
  | basicCancel (tag : Option Nat)
deriving DecidableEq

/-- The rolling statistics fields of the object: `self.invocations` and
`self.total_execution_time` (lines 64-65). -/
structure Stats where
  invocations : Nat
  total_execution_time : Nat
deriving DecidableEq

/-- The publish loop over `response_messages` (lines 351-356): for each
message one `basic_publish` with the dict's own `exchange`/`queue` defaulted
to the consumer's exchange and queue name, followed by one
`message.publish` metric increment. -/
def publishEvents (c : Config) : List OutMessage → List Event
  | [] => []
  | m :: ms =>
      Event.publish (m.exchange.getD c.exchange) (m.queue.getD (queue_name c)) m.body ::
      Event.incr (metricName c "message.publish") ::
      publishEvents c ms

/-- The `try`/`except` body of `on_message` (lines 331-364): decode, then
either invoke the handler and publish its results, or — on a decode failure
or a handler exception — emit the error metric and republish the raw `body`
to the error queue on the default (empty-string) exchange.  The outer
`except Exception` swallows the failure, so this is a total function. -/
def processEvents {J : Type} (c : Config)
    (callback_func : J → Except Unit (Option (List OutMessage)))
    (body : Body) (decoded : Option J) : List Event :=
  Event.decodeAttempt ::
  match decoded with
  | none =>
      [Event.incr (metricName c "message.error"),
       Event.publish "" (error_queue_name c) (some body)]
  | some j =>
      Event.handlerCall ::
      match callback_func j with
      | Except.error _ =>
          [Event.incr (metricName c "message.error"),
           Event.publish "" (error_queue_name c) (some body)]
      | Except.ok r => publishEvents c (r.getD [])

/-- Lines 367-376 of `on_message`: the new invocation count is
`st.invocations + 1`, and `if self.invocations % 100 == 0` the average over
the accumulated `total_execution_time + t1` is logged at INFO.  Note the
source tests the already-incremented counter. -/
def rollingEvents (c : Config) (st : Stats) (t1 : Nat) : List Event :=
  if (st.invocations + 1) % 100 == 0
  then [Event.logAvg c.consumer_id ((st.total_execution_time + t1) / 100)]
  else []

/-- Lines 368 and 376: `total_execution_time` accumulates `t1` and is reset
to `0` on every 100th invocation; `invocations` itself is never reset. -/
def rollingTotal (st : Stats) (t1 : Nat) : Nat :=
  if (st.invocations + 1) % 100 == 0 then 0 else st.total_execution_time + t1

/-- `on_message` (lines 302-378).  Returns the updated rolling stats and the
trace of side effects in program order: receive metric, immediate ack,
decode/handle/publish (or the error path), accumulation of `t1` into
`total_execution_time`, the every-100th-invocation average log and reset,
and finally the unconditional `message.process.time` timing metric with the
second elapsed reading `t2`. -/
def on_message {J : Type} (c : Config) (st : Stats)
    (callback_func : J → Except Unit (Option (List OutMessage)))
    (delivery_tag : Nat) (body : Body) (decoded : Option J)
    (t1 t2 : Nat) : Stats × List Event :=
  (⟨st.invocations + 1, rollingTotal st t1⟩,
   [Event.incr (metricName c "message.receive"), Event.ack delivery_tag] ++
     processEvents c callback_func body decoded ++
     rollingEvents c st t1 ++
     [Event.timing (metricName c "message.process.time") t2])

/-- The mutable lifecycle fields of the object: `self._closing`,
`self.stopped`, `self._channel`, `self._connection`, `self._consumer_tag`
(lines 48-53).  An `Option Unit` field is `some ()` when the Python field
holds an object and `none` when it is `None`. -/
structure LifecycleState where
  closing : Bool
  stopped : Bool
  channel : Option Unit
  connection : Option Unit
  consumer_tag : Option Nat
deriving DecidableEq

/-- `on_connection_closed` (lines 107-123): clear `self._channel`; if
`self._closing` stop the io-loop (terminal), otherwise schedule `reconnect`
in 5 seconds via `add_timeout`. -/
def on_connection_closed (s : LifecycleState) : LifecycleState × List Event :=
  let s1 := { s with channel := none }
  if s1.closing then (s1, [Event.ioloopStop])
  else (s1, [Event.scheduleReconnect 5])

/-- `reconnect` (lines 125-138): stop the old connection's io-loop, then —
only when `self._closing` is unset — open a fresh connection and start its
io-loop. -/
def reconnect (s : LifecycleState) : List Event :=
  Event.ioloopStop ::
  (if s.closing then [] else [Event.connectAttempt, Event.ioloopStart])

/-- `on_channel_closed` (lines 173-187): on an unexpected channel close the
code only logs and calls `self._connection.close()`. -/
def on_channel_closed (s : LifecycleState) : LifecycleState × List Event :=
  (s, [Event.connectionClose])

/-- `on_consumer_cancelled` (lines 290-300): close the channel, but only if
`self._channel` is truthy. -/
def on_consumer_cancelled (s : LifecycleState) : List Event :=
  match s.channel with
  | some _ => [Event.channelClose]
  | none => []

/-- `stop_consuming` (lines 391-398): send `Basic.Cancel` for the stored
consumer tag, but only if `self._channel` is truthy. -/
def stop_consuming (s : LifecycleState) : List Event :=
  match s.channel with
  | some _ => [Event.basicCancel s.consumer_tag]
  | none => []

/-- `stop` (lines 436-454): set `self._closing`, run `stop_consuming`,
restart the io-loop only when `self._connection is not None`, then set
`self.stopped = True`. -/
def stop (s : LifecycleState) : LifecycleState × List Event :=
  let s1 := { s with closing := true }
  let ev1 := stop_consuming s1
  let ev2 : List Event :=
    match s1.connection with
    | some _ => [Event.ioloopStart]
    | none => []
  ({ s1 with stopped := true }, ev1 ++ ev2)

/-- The topology-setup callbacks of the class, each registered as the
acknowledgment callback of the broker request issued by the previous step. -/
inductive SetupCb where
  | setup_queue
  | on_queue_declareok
  | on_bindok
  | on_error_queue_declareok
deriving DecidableEq

/-- A broker operation issued during setup, with the arguments the source
passes (lines 189-279). -/
inductive SetupOp where
  | exchange_declare (exchange : String) (passive : Bool)
  | queue_declare (queue : String) (durable : Bool) (exclusive : Bool)
  | queue_bind (queue : String) (exchange : String) (routing_key : String)
  | add_on_cancel_callback
  | basic_consume (queue : String)
deriving DecidableEq

/-- A broker request together with the acknowledgment callback the source
registers on it (`none` when the operation takes no completion callback). -/
structure SetupRequest where
  op : SetupOp
  cb : Option SetupCb
deriving DecidableEq

/-- `setup_queues_and_bindings` (lines 189-192): passively declare the
exchange, registering `setup_queue` as the completion callback. -/
def setup_queues_and_bindings (c : Config) : List SetupRequest :=
  [⟨SetupOp.exchange_declare c.exchange true, some SetupCb.setup_queue⟩]

/-- What each acknowledgment callback does when the broker invokes it:
`setup_queue` (lines 194-205) declares the durable non-exclusive queue;
`on_queue_declareok` (lines 208-229) binds queue to exchange with routing
key `""`; `on_bindok` (lines 231-251, via `setup_error_queue`) declares the
durable non-exclusive error queue; `on_error_queue_declareok`
(lines 253-279, via `start_consuming`) registers the cancel callback and
issues `basic_consume` on the queue. -/
def runSetupCb (c : Config) : SetupCb → List SetupRequest
  | SetupCb.setup_queue =>
      [⟨SetupOp.queue_declare (queue_name c) true false, some SetupCb.on_queue_declareok⟩]
  | SetupCb.on_queue_declareok =>
      [⟨SetupOp.queue_bind (queue_name c) c.exchange "", some SetupCb.on_bindok⟩]
  | SetupCb.on_bindok =>
      [⟨SetupOp.queue_declare (error_queue_name c) true false,
        some SetupCb.on_error_queue_declareok⟩]
  | SetupCb.on_error_queue_declareok =>
      [⟨SetupOp.add_on_cancel_callback, none⟩,
       ⟨SetupOp.basic_consume (queue_name c), none⟩]

/-- Drives the callback chain: as long as the most recent pending request
carries a completion callback, the broker acknowledges it and the callback
emits the next request(s).  `fuel` bounds the number of acknowledgments. -/
def runSetupChain (c : Config) : Nat → List SetupRequest → List SetupRequest
  | 0, acc => acc
  | fuel + 1, acc =>
      match acc.getLast? with
      | some req =>
          match req.cb with
          | some cb => runSetupChain c fuel (acc ++ runSetupCb c cb)
          | none => acc
      | none => acc

/-- The full sequence of broker requests issued from
`setup_queues_and_bindings` through `start_consuming`, assuming the broker
acknowledges every request. -/
def setupTrace (c : Config) : List SetupRequest :=
  runSetupChain c 5 (setup_queues_and_bindings c)

/-! Trace predicates and small facts used by the claim theorems. -/

/-- The `basic_publish` event the source issues for one handler-returned
message (lines 352-354). -/
def publishEventOf (c : Config) (m : OutMessage) : Event :=
  Event.publish (m.exchange.getD c.exchange) (m.queue.getD (queue_name c)) m.body

/-- Recognise `basic_publish` events. -/
def isPublishEvent : Event → Bool
  | Event.publish _ _ _ => true
  | _ => false

/-- Recognise the increment of the metric named `metricName c sfx`. -/
def isIncrOf (c : Config) (sfx : String) : Event → Bool
  | Event.incr m => m == metricName c sfx
  | _ => false

theorem string_append_left_cancel (p s t : String) (h : p ++ s = p ++ t) :
    s = t := by
  have h3 : p.data ++ s.data = p.data ++ t.data := congrArg String.data h
  have h4 := List.append_cancel_left h3
  cases s; cases t; exact congrArg String.mk h4

/-- Two metric names built from the same consumer coincide exactly when
their suffixes do. -/
theorem metricName_inj (c : Config) {s t : String} :
    metricName c s = metricName c t ↔ s = t := by
  constructor
  · intro h
    simp only [metricName] at h
    exact string_append_left_cancel _ _ _ h
  · intro h; rw [h]

@[simp] theorem metricName_beq (c : Config) (s t : String) :
    (metricName c s == metricName c t) = (s == t) := by
  by_cases hst : s = t
  · subst hst; simp
  · have hmn : metricName c s ≠ metricName c t := fun h => hst ((metricName_inj c).mp h)
    simp [hst, hmn]

@[simp] theorem isPublishEvent_publishEventOf (c : Config) (m : OutMessage) :
    isPublishEvent (publishEventOf c m) = true := rfl

/-- Publishes recorded by the handler-result loop are exactly the
per-message `basic_publish` events, in order. -/
theorem publishEvents_filter_publish (c : Config) (ms : List OutMessage) :
    (publishEvents c ms).filter isPublishEvent = ms.map (publishEventOf c) := by
  induction ms with
  | nil => rfl
  | cons m ms ih =>
      simp [publishEvents, List.filter, isPublishEvent, publishEventOf, ih]

/-- The handler-result loop emits one `message.publish` increment per
message. -/
theorem publishEvents_filter_publish_metric (c : Config) (ms : List OutMessage) :
    ((publishEvents c ms).filter (isIncrOf c "message.publish")).length = ms.length := by
  induction ms with
  | nil => rfl
  | cons m ms ih =>
      simp [publishEvents, List.filter, isIncrOf, publishEventOf, ih]

/-- The handler-result loop emits no `message.error` increment. -/
theorem publishEvents_filter_error_metric (c : Config) (ms : List OutMessage) :
    (publishEvents c ms).filter (isIncrOf c "message.error") = [] := by
  induction ms with
  | nil => rfl
  | cons m ms ih =>
      simp [publishEvents, List.filter, isIncrOf, publishEventOf, ih]

/-- The rolling-average block emits neither publishes nor metric
increments. -/
theorem rollingEvents_filter (c : Config) (st : Stats) (t1 : Nat) (p : Event → Bool)
    (hp : ∀ i a, p (Event.logAvg i a) = false) :
    (rollingEvents c st t1).filter p = [] := by
  unfold rollingEvents
  split
  · simp [List.filter, hp]
  · rfl

/-- Recognise `statsd.timing` events. -/
def isTimingEvent : Event → Bool
  | Event.timing _ _ => true
  | _ => false

@[simp] theorem rollingEvents_filter_isIncrOf (c c2 : Config) (st : Stats) (t1 : Nat)
    (sfx : String) : (rollingEvents c st t1).filter (isIncrOf c2 sfx) = [] :=
  rollingEvents_filter c st t1 _ (fun _ _ => rfl)

@[simp] theorem rollingEvents_filter_isPublish (c : Config) (st : Stats) (t1 : Nat) :
    (rollingEvents c st t1).filter isPublishEvent = [] :=
  rollingEvents_filter c st t1 _ (fun _ _ => rfl)

@[simp] theorem rollingEvents_filter_isTiming (c : Config) (st : Stats) (t1 : Nat) :
    (rollingEvents c st t1).filter isTimingEvent = [] :=
  rollingEvents_filter c st t1 _ (fun _ _ => rfl)

/-- The handler-result loop emits no `statsd.timing` event. -/
theorem publishEvents_filter_timing (c : Config) (ms : List OutMessage) :
    (publishEvents c ms).filter isTimingEvent = [] := by
  induction ms with
  | nil => rfl
  | cons m ms ih =>
      simp [publishEvents, List.filter, isTimingEvent, ih]

/-! Concrete fixtures used to instantiate the theorems. -/

/-- A concrete consumer configuration. -/
def cW : Config := ⟨"bot", "ex", 3⟩

/-- A handler that returns `None`. -/
def fNone : Unit → Except Unit (Option (List OutMessage)) := fun _ => Except.ok none

/-- A concrete outbound message with explicit targets. -/
def mFull : OutMessage := ⟨some "other-ex", some "other-q", some [10, 20]⟩

/-- An outbound message with every optional key absent. -/
def mBare : OutMessage := ⟨none, none, none⟩

/-- A handler that returns the two concrete outbound messages. -/
def fTwo : Unit → Except Unit (Option (List OutMessage)) :=
  fun _ => Except.ok (some [mFull, mBare])

/-- A lifecycle state with an open channel and connection, not closing. -/
def sOpen : LifecycleState := ⟨false, false, some (), some (), some 1⟩

/-- A lifecycle state in deliberate shutdown: `closing` set. -/
def sClosing : LifecycleState := ⟨true, false, some (), some (), some 1⟩

/-- A lifecycle state with no channel and no connection. -/
def sBare : LifecycleState := ⟨false, false, none, none, none⟩

/-! The claim theorems. -/

/-- C1: for every delivery handled by `on_message` — whatever the decode
result and whatever the handler does — the acknowledgment
(`channel.basic_ack` with the delivery tag) appears in the effect trace
before any JSON decode attempt and before any invocation of the handler
`callback_func`: the trace splits around the ack and the prefix contains
neither a decode attempt nor a handler call. -/
theorem C1_ack_precedes_decode_and_handler {J : Type} (c : Config) (st : Stats)
    (callback_func : J → Except Unit (Option (List OutMessage)))
    (delivery_tag : Nat) (body : Body) (decoded : Option J) (t1 t2 : Nat) :
    ∃ pre post,
      (on_message c st callback_func delivery_tag body decoded t1 t2).2
        = pre ++ Event.ack delivery_tag :: post ∧
      Event.decodeAttempt ∉ pre ∧ Event.handlerCall ∉ pre := by
  refine ⟨[Event.incr (metricName c "message.receive")],
          processEvents c callback_func body decoded ++ rollingEvents c st t1 ++
            [Event.timing (metricName c "message.process.time") t2], ?_, ?_, ?_⟩
  · simp [on_message]
  · simp
  · simp

/-- C5: on an unexpected connection close, the channel field is cleared; if
`closing` is unset a reconnect is scheduled with the fixed 5-second delay,
and if `closing` is set the io-loop is stopped and nothing else happens — in
particular no reconnect is scheduled, and even a previously scheduled
`reconnect` firing in that state only stops the old io-loop (no new
connection, no new io-loop). -/
theorem C5_connection_closed_behaviour (s : LifecycleState) :
    (on_connection_closed s).1.channel = none ∧
    (s.closing = false →
      (on_connection_closed s).2 = [Event.scheduleReconnect 5]) ∧
    (s.closing = true →
      (on_connection_closed s).2 = [Event.ioloopStop] ∧
      (∀ d, Event.scheduleReconnect d ∉ (on_connection_closed s).2) ∧
      reconnect s = [Event.ioloopStop]) := by
  rcases s with ⟨cl, stp, ch, co, tg⟩
  cases cl <;> simp [on_connection_closed, reconnect]

/-- Witness for C5 at two concrete lifecycle states, one per branch of the
hypothesis. -/
theorem C5_connection_closed_behaviour_witness :
    (on_connection_closed sOpen).2 = [Event.scheduleReconnect 5] ∧
    (on_connection_closed sClosing).2 = [Event.ioloopStop] ∧
    reconnect sClosing = [Event.ioloopStop] :=
  ⟨(C5_connection_closed_behaviour sOpen).2.1 rfl,
   ((C5_connection_closed_behaviour sClosing).2.2 rfl).1,
   ((C5_connection_closed_behaviour sClosing).2.2 rfl).2.2⟩

/-- C6: driving the callback chain from `setup_queues_and_bindings` with a
broker that acknowledges each request produces exactly the passive exchange
check, then the durable non-exclusive queue declare, then the bind with
empty routing key, then the durable non-exclusive error-queue declare, and
only then — triggered by the fourth acknowledgment — the cancel-callback
registration and `basic_consume`; each request is emitted by the
acknowledgment callback registered on the previous one, and no consume
request occurs anywhere before the last position. -/
theorem C6_topology_then_consume (c : Config) :
    setupTrace c =
      [⟨SetupOp.exchange_declare c.exchange true, some SetupCb.setup_queue⟩,
       ⟨SetupOp.queue_declare (queue_name c) true false, some SetupCb.on_queue_declareok⟩,
       ⟨SetupOp.queue_bind (queue_name c) c.exchange "", some SetupCb.on_bindok⟩,
       ⟨SetupOp.queue_declare (error_queue_name c) true false,
         some SetupCb.on_error_queue_declareok⟩,
       ⟨SetupOp.add_on_cancel_callback, none⟩,
       ⟨SetupOp.basic_consume (queue_name c), none⟩] ∧
    (∀ r ∈ (setupTrace c).dropLast, ∀ q, r.op ≠ SetupOp.basic_consume q) := by
  constructor
  · rfl
  · intro r hr q
    have : (setupTrace c).dropLast =
      [⟨SetupOp.exchange_declare c.exchange true, some SetupCb.setup_queue⟩,
       ⟨SetupOp.queue_declare (queue_name c) true false, some SetupCb.on_queue_declareok⟩,
       ⟨SetupOp.queue_bind (queue_name c) c.exchange "", some SetupCb.on_bindok⟩,
       ⟨SetupOp.queue_declare (error_queue_name c) true false,
         some SetupCb.on_error_queue_declareok⟩,
       ⟨SetupOp.add_on_cancel_callback, none⟩] := rfl
    rw [this] at hr
    simp only [List.mem_cons, List.not_mem_nil, or_false] at hr
    rcases hr with rfl | rfl | rfl | rfl | rfl <;> simp

/-- C7: on an unexpected channel close the source closes the whole
connection and performs nothing else: no channel reopen request and no
channel-level recovery appears. -/
theorem C7_channel_close_closes_connection (s : LifecycleState) :
    (on_channel_closed s).2 = [Event.connectionClose] ∧
    Event.openChannelReq ∉ (on_channel_closed s).2 ∧
    Event.channelClose ∉ (on_channel_closed s).2 := by
  refine ⟨rfl, ?_, ?_⟩ <;> simp [on_channel_closed]

/-- C10: with no channel open (`self._channel is None`),
`on_consumer_cancelled` and `stop_consuming` perform nothing, and `stop`
still sets `closing`, reaches `stopped = true`, emits no channel operation
(every event it can emit is an io-loop start), and skips the io-loop
restart entirely when no connection exists. -/
theorem C10_stop_without_channel (s : LifecycleState) (h : s.channel = none) :
    on_consumer_cancelled s = [] ∧
    stop_consuming s = [] ∧
    (stop s).1.closing = true ∧
    (stop s).1.stopped = true ∧
    (∀ e ∈ (stop s).2, e = Event.ioloopStart) ∧
    (s.connection = none → (stop s).2 = []) := by
  rcases s with ⟨cl, stp, ch, co, tg⟩
  simp only at h
  subst h
  cases co <;> simp [on_consumer_cancelled, stop_consuming, stop]

/-- C2: whenever the decode fails or the handler raises, the `on_message`
trace carries exactly one `message.error` metric increment, exactly one
`basic_publish` — the original raw body, unmodified, on the empty (default)
exchange with the error-queue name as routing key — and the invocation still
runs to completion (the trailing timing metric is emitted), so the failure
never escapes `on_message`. -/
theorem C2_failure_swallowed_error_routed {J : Type} (c : Config) (st : Stats)
    (callback_func : J → Except Unit (Option (List OutMessage)))
    (delivery_tag : Nat) (body : Body) (decoded : Option J) (t1 t2 : Nat)
    (hfail : decoded = none ∨
      ∃ j e, decoded = some j ∧ callback_func j = Except.error e) :
    ((on_message c st callback_func delivery_tag body decoded t1 t2).2.filter
        (isIncrOf c "message.error"))
      = [Event.incr (metricName c "message.error")] ∧
    ((on_message c st callback_func delivery_tag body decoded t1 t2).2.filter
        isPublishEvent)
      = [Event.publish "" (error_queue_name c) (some body)] ∧
    ∃ st2 pre,
      on_message c st callback_func delivery_tag body decoded t1 t2
        = (st2, pre ++ [Event.timing (metricName c "message.process.time") t2]) := by
  have h3 : ∃ st2 pre,
      on_message c st callback_func delivery_tag body decoded t1 t2
        = (st2, pre ++ [Event.timing (metricName c "message.process.time") t2]) :=
    ⟨⟨st.invocations + 1, rollingTotal st t1⟩,
     [Event.incr (metricName c "message.receive"), Event.ack delivery_tag] ++
       processEvents c callback_func body decoded ++ rollingEvents c st t1, rfl⟩
  obtain hd | ⟨j, e, hd, hf⟩ := hfail
  · subst hd
    refine ⟨?_, ?_, h3⟩ <;>
      simp [on_message, processEvents, List.filter_append, List.filter,
            isIncrOf, isPublishEvent]
  · subst hd
    refine ⟨?_, ?_, h3⟩ <;>
      simp [on_message, processEvents, hf, List.filter_append, List.filter,
            isIncrOf, isPublishEvent]

/-- Witness for C2 at a concrete malformed delivery: body `[1, 2, 3]`
fails to decode and is republished byte-for-byte to the error queue. -/
theorem C2_failure_swallowed_error_routed_witness :
    ((none : Option Unit) = none ∨
      ∃ j e, (none : Option Unit) = some j ∧ fNone j = Except.error e) ∧
    ((on_message cW ⟨0, 0⟩ fNone 7 [1, 2, 3] none 5 9).2.filter
        (isIncrOf cW "message.error"))
      = [Event.incr (metricName cW "message.error")] ∧
    ((on_message cW ⟨0, 0⟩ fNone 7 [1, 2, 3] none 5 9).2.filter isPublishEvent)
      = [Event.publish "" (error_queue_name cW) (some [1, 2, 3])] ∧
    ∃ st2 pre,
      on_message cW ⟨0, 0⟩ fNone 7 [1, 2, 3] none 5 9
        = (st2, pre ++ [Event.timing (metricName cW "message.process.time") 9]) :=
  ⟨Or.inl rfl,
   C2_failure_swallowed_error_routed cW ⟨0, 0⟩ fNone 7 [1, 2, 3] none 5 9 (Or.inl rfl)⟩

/-- C3: when the decode succeeds and the handler returns `N` outbound
messages without raising, the trace splits as `pre ++ [timing]`: the
`basic_publish` events in `pre` are exactly the handler's messages in
return order (hence exactly `N` of them), and no timing event precedes the
final `message.process.time` metric. -/
theorem C3_publishes_in_return_order_before_timing {J : Type} (c : Config) (st : Stats)
    (callback_func : J → Except Unit (Option (List OutMessage)))
    (delivery_tag : Nat) (body : Body) (decoded : Option J)
    (j : J) (msgs : List OutMessage) (t1 t2 : Nat)
    (hd : decoded = some j) (hf : callback_func j = Except.ok (some msgs)) :
    ∃ pre,
      (on_message c st callback_func delivery_tag body decoded t1 t2).2
        = pre ++ [Event.timing (metricName c "message.process.time") t2] ∧
      pre.filter isPublishEvent = msgs.map (publishEventOf c) ∧
      (pre.filter isPublishEvent).length = msgs.length ∧
      pre.filter isTimingEvent = [] := by
  subst hd
  have hpub : ([Event.incr (metricName c "message.receive"), Event.ack delivery_tag] ++
        processEvents c callback_func body (some j) ++ rollingEvents c st t1).filter
          isPublishEvent = msgs.map (publishEventOf c) := by
    simp [processEvents, hf, List.filter_append, List.filter, isPublishEvent,
          publishEvents_filter_publish]
  refine ⟨[Event.incr (metricName c "message.receive"), Event.ack delivery_tag] ++
            processEvents c callback_func body (some j) ++ rollingEvents c st t1,
          rfl, hpub, ?_, ?_⟩
  · rw [hpub]; exact List.length_map _ _
  · simp [processEvents, hf, List.filter_append, List.filter, isTimingEvent,
          publishEvents_filter_timing]

/-- Witness for C3 at a concrete delivery whose handler returns two
messages. -/
theorem C3_publishes_in_return_order_before_timing_witness :
    (some () = some ()) ∧ fTwo () = Except.ok (some [mFull, mBare]) ∧
    ∃ pre,
      (on_message cW ⟨0, 0⟩ fTwo 7 [1] (some ()) 5 9).2
        = pre ++ [Event.timing (metricName cW "message.process.time") 9] ∧
      pre.filter isPublishEvent = [mFull, mBare].map (publishEventOf cW) ∧
      (pre.filter isPublishEvent).length = 2 ∧
      pre.filter isTimingEvent = [] :=
  ⟨rfl, rfl,
   C3_publishes_in_return_order_before_timing cW ⟨0, 0⟩ fTwo 7 [1] (some ())
     () [mFull, mBare] 5 9 rfl rfl⟩

/-- C4 fails as stated (the invocation counter is never reset — see the
counterexample), but the accumulator half holds: on every invocation whose
new count is a multiple of 100, `total_execution_time` comes out `0` (so the
accumulator is 0 before the next invocation accumulates), the count comes
out `st.invocations + 1`, and the trace ends with the average-time log —
computed from the pre-reset accumulated total — followed by the timing
metric. -/
theorem C4_hundredth_invocation_resets_accumulator {J : Type} (c : Config) (st : Stats)
    (callback_func : J → Except Unit (Option (List OutMessage)))
    (delivery_tag : Nat) (body : Body) (decoded : Option J) (t1 t2 : Nat)
    (h : (st.invocations + 1) % 100 = 0) :
    (on_message c st callback_func delivery_tag body decoded t1 t2).1.total_execution_time
      = 0 ∧
    (on_message c st callback_func delivery_tag body decoded t1 t2).1.invocations
      = st.invocations + 1 ∧
    ∃ pre,
      (on_message c st callback_func delivery_tag body decoded t1 t2).2
        = pre ++ [Event.logAvg c.consumer_id ((st.total_execution_time + t1) / 100),
                  Event.timing (metricName c "message.process.time") t2] := by
  have hb : ((st.invocations + 1) % 100 == 0) = true := by simp [h]
  refine ⟨?_, rfl, ?_⟩
  · simp [on_message, rollingTotal, hb]
  · refine ⟨[Event.incr (metricName c "message.receive"), Event.ack delivery_tag] ++
             processEvents c callback_func body decoded, ?_⟩
    simp [on_message, rollingEvents, hb, List.append_assoc]

/-- Witness for C4's amended statement at the 100th invocation. -/
theorem C4_hundredth_invocation_resets_accumulator_witness :
    (99 + 1) % 100 = 0 ∧
    ((on_message cW ⟨99, 41⟩ fNone 1 [] (some ()) 7 9).1.total_execution_time = 0 ∧
     (on_message cW ⟨99, 41⟩ fNone 1 [] (some ()) 7 9).1.invocations = 99 + 1 ∧
     ∃ pre,
       (on_message cW ⟨99, 41⟩ fNone 1 [] (some ()) 7 9).2
         = pre ++ [Event.logAvg cW.consumer_id ((41 + 7) / 100),
                   Event.timing (metricName cW "message.process.time") 9]) :=
  ⟨by decide,
   C4_hundredth_invocation_resets_accumulator cW ⟨99, 41⟩ fNone 1 [] (some ()) 7 9
     (by decide)⟩

/-- One `on_message` invocation with trivial concrete inputs, keeping only
the rolling stats. -/
def c4Step (st : Stats) : Stats :=
  (on_message cW st fNone 1 [] (some ()) 0 0).1

/-- `n` consecutive `on_message` invocations starting from the freshly
initialised stats `⟨0, 0⟩` of `__init__`. -/
def c4Iter : Nat → Stats
  | 0 => ⟨0, 0⟩
  | n + 1 => c4Step (c4Iter n)

/-- C4 counterexample: after the 100th invocation the invocation counter is
100, not 0 — the source resets only `total_execution_time`
(line 376), never `invocations`, so the claim that both Rolling Stats
fields are reset is false. -/
theorem C4_counterexample_count_not_reset :
    (c4Iter 100).invocations = 100 ∧ (100 : Nat) ≠ 0 := by
  constructor
  · decide
  · decide

/-- C8: a `None` handler return behaves exactly like an empty sequence: the
whole `on_message` result (state and trace) coincides with the one for a
handler returning `[]`, there is no publish, no `message.publish` metric,
and the failure path is not taken (no `message.error` metric and no
publish at all, in particular none to the error queue). -/
theorem C8_none_result_as_empty {J : Type} (c : Config) (st : Stats)
    (callback_func : J → Except Unit (Option (List OutMessage)))
    (delivery_tag : Nat) (body : Body) (decoded : Option J) (j : J) (t1 t2 : Nat)
    (hd : decoded = some j) (hf : callback_func j = Except.ok none) :
    on_message c st callback_func delivery_tag body decoded t1 t2
      = on_message c st (fun _ => Except.ok (some [])) delivery_tag body decoded t1 t2 ∧
    (on_message c st callback_func delivery_tag body decoded t1 t2).2.filter
      isPublishEvent = [] ∧
    (on_message c st callback_func delivery_tag body decoded t1 t2).2.filter
      (isIncrOf c "message.publish") = [] ∧
    (on_message c st callback_func delivery_tag body decoded t1 t2).2.filter
      (isIncrOf c "message.error") = [] := by
  subst hd
  refine ⟨?_, ?_, ?_, ?_⟩ <;>
    simp [on_message, processEvents, hf, publishEvents, List.filter_append,
          List.filter, isPublishEvent, isIncrOf]

/-- Witness for C8 at a concrete delivery whose handler returns `None`. -/
theorem C8_none_result_as_empty_witness :
    (some () = some ()) ∧ fNone () = Except.ok none ∧
    (on_message cW ⟨0, 0⟩ fNone 7 [1] (some ()) 5 9
      = on_message cW ⟨0, 0⟩ (fun _ => Except.ok (some [])) 7 [1] (some ()) 5 9 ∧
     (on_message cW ⟨0, 0⟩ fNone 7 [1] (some ()) 5 9).2.filter isPublishEvent = [] ∧
     (on_message cW ⟨0, 0⟩ fNone 7 [1] (some ()) 5 9).2.filter
       (isIncrOf cW "message.publish") = [] ∧
     (on_message cW ⟨0, 0⟩ fNone 7 [1] (some ()) 5 9).2.filter
       (isIncrOf cW "message.error") = []) :=
  ⟨rfl, rfl, C8_none_result_as_empty cW ⟨0, 0⟩ fNone 7 [1] (some ()) () 5 9 rfl rfl⟩

/-- C9: every published outbound message goes to its own `'exchange'` and
`'queue'` keys when present, defaulting to the consumer's configured
exchange and own queue name when absent, and one `message.publish` metric
is emitted per published message. -/
theorem C9_publish_targets_default_and_metric {J : Type} (c : Config) (st : Stats)
    (callback_func : J → Except Unit (Option (List OutMessage)))
    (delivery_tag : Nat) (body : Body) (decoded : Option J)
    (j : J) (msgs : List OutMessage) (t1 t2 : Nat)
    (hd : decoded = some j) (hf : callback_func j = Except.ok (some msgs)) :
    (on_message c st callback_func delivery_tag body decoded t1 t2).2.filter
        isPublishEvent
      = msgs.map (fun m =>
          Event.publish (m.exchange.getD c.exchange)
            (m.queue.getD (queue_name c)) m.body) ∧
    ((on_message c st callback_func delivery_tag body decoded t1 t2).2.filter
        (isIncrOf c "message.publish")).length = msgs.length := by
  subst hd
  constructor
  · simp [on_message, processEvents, hf, List.filter_append, List.filter,
          isPublishEvent, publishEvents_filter_publish, publishEventOf]
  · simp [on_message, processEvents, hf, List.filter_append, List.filter,
          isIncrOf, publishEvents_filter_publish_metric]

/-- Witness for C9: `mFull` keeps its own targets, `mBare` falls back to
the consumer's exchange and queue name. -/
theorem C9_publish_targets_default_and_metric_witness :
    (some () = some ()) ∧ fTwo () = Except.ok (some [mFull, mBare]) ∧
    ((on_message cW ⟨0, 0⟩ fTwo 7 [1] (some ()) 5 9).2.filter isPublishEvent
      = [Event.publish "other-ex" "other-q" (some [10, 20]),
         Event.publish cW.exchange (queue_name cW) none] ∧
     ((on_message cW ⟨0, 0⟩ fTwo 7 [1] (some ()) 5 9).2.filter
        (isIncrOf cW "message.publish")).length = 2) :=
  ⟨rfl, rfl,
   C9_publish_targets_default_and_metric cW ⟨0, 0⟩ fTwo 7 [1] (some ())
     () [mFull, mBare] 5 9 rfl rfl⟩

/-- Witness for C10 at a concrete channel-less, connection-less state. -/
theorem C10_stop_without_channel_witness :
    on_consumer_cancelled sBare = [] ∧
    stop_consuming sBare = [] ∧
    (stop sBare).1.closing = true ∧
    (stop sBare).1.stopped = true ∧
    (stop sBare).2 = [] :=
  ⟨(C10_stop_without_channel sBare rfl).1,
   (C10_stop_without_channel sBare rfl).2.1,
   (C10_stop_without_channel sBare rfl).2.2.1,
   (C10_stop_without_channel sBare rfl).2.2.2.1,
   (C10_stop_without_channel sBare rfl).2.2.2.2.2 rfl⟩

end Vibebot
